import Mathlib

/-!
Shallow embedding of the ClimateX causal policy-impact estimation engine:
`src/services/causal_engine/runner.py` (`run_causal_analysis`) and its batch
driver `src/scripts/4_run_historical_analysis.py`.

A pandas DataFrame is modelled as an association list from column names to
columns of rational values.  The external `dowhy` library calls
(`CausalModel` construction + `identify_effect` + `estimate_effect`,
`test_stat_significance`, `refute_estimate`) are not code of this
repository; they are abstracted as an oracle whose components may either
return a value (`Except.ok`) or raise a Python exception (`Except.error`).
The control flow of the repository's own code — column subsetting, the
missing-column and degeneracy skips, the robust p-value extraction, the
per-pair try/except, the batch loop, the post-loop column selection and the
CSV write — is embedded faithfully.
-/

/-- A pandas DataFrame: ordered association list of (column name, column values). -/
abbrev DataFrame : Type := List (String × List ℚ)

/-- The list of column names, in order (`df.columns`). -/
def DataFrame.columns (df : DataFrame) : List String := df.map Prod.fst

/-- Column membership test (`col in df.columns`). -/
def DataFrame.hasCol (df : DataFrame) (c : String) : Bool := df.columns.contains c

/-- Column lookup (`df[c]`); the empty column stands for a lookup that
pandas would refuse — all call sites in the embedding guard presence first,
except the `Year` lookup of the batch script, which is modelled fallibly. -/
def DataFrame.getCol (df : DataFrame) (c : String) : List ℚ :=
  match df.find? (fun p => p.1 = c) with
  | some p => p.2
  | none => []

/-- Column projection `df[cols]`: the result's columns are exactly `cols`,
in that order (call sites guard that every name is present). -/
def DataFrame.project (df : DataFrame) (cols : List String) : DataFrame :=
  cols.map (fun c => (c, df.getCol c))

/-- Column assignment `df[c] = vs`: overwrite in place when `c` exists,
otherwise append a new column at the end (pandas semantics). -/
def DataFrame.setCol (df : DataFrame) (c : String) (vs : List ℚ) : DataFrame :=
  if df.hasCol c then
    df.map (fun p => if p.1 = c then (c, vs) else p)
  else
    df ++ [(c, vs)]

/-- `df[c].nunique(dropna=False)`: number of distinct values in the column. -/
def DataFrame.nunique (df : DataFrame) (c : String) : ℕ :=
  (df.getCol c).dedup.length

/-- One result dictionary appended by `run_causal_analysis` (runner.py
lines 105-111 and 115-121). -/
structure ImpactRecord where
  policy : String
  pollutant : String
  ate : Option ℚ
  p_value_ate : Option ℚ
  p_value_placebo : Option ℚ
deriving Repr, DecidableEq

/-- The raw p-value payload of a significance / refutation result, as the
robust-extraction code sees it: `none` models a falsy result or a missing
`p_value` key; a list models scalar (singleton) or array-like candidates;
an inner `none` models a NaN entry (`pd.notna` fails). -/
def PValPayload : Type := Option (List (Option ℚ))

/-- The robust p-value extraction of runner.py lines 76-83 / 95-102:
take the first element of an array-like candidate, keep it only when it is
not NaN; otherwise leave the p-value at `None`. -/
def extractPVal : PValPayload → Option ℚ
  | some (some v :: _) => some v
  | _ => none

/-- Oracle for the `dowhy` library calls, which are external to this
repository.  Each component receives the subsetted DataFrame and the
role declarations the repository code passes; `Except.error` models a
raised Python exception, caught by the per-outcome `except` block. -/
structure CausalOracle where
  /-- `CausalModel(...)` + `identify_effect` + `estimate_effect(...,
  method_name="backdoor.linear_regression", test_significance=True)`,
  returning `estimate.value`. -/
  estimateEffect : DataFrame → String → String → List String → Except Unit ℚ
  /-- `estimate.test_stat_significance()`, returning the p-value payload. -/
  testStatSignificance : DataFrame → String → String → List String → ℚ → Except Unit PValPayload
  /-- `model.refute_estimate(..., method_name="placebo_treatment_refuter",
  placebo_type="permute", num_simulations=50)`, returning the
  `refutation_result` p-value payload; its value may depend on the global
  random state, which the batch never seeds. -/
  refutePlacebo : DataFrame → String → String → List String → ℚ → Except Unit PValPayload

/-- runner.py line 37: `relevant_cols = [treatment_col, outcome] + common_causes_list`. -/
def relevantCols (t out : String) (cs : List String) : List String :=
  t :: out :: cs

/-- runner.py line 40: the required columns absent from the DataFrame. -/
def missingCols (df : DataFrame) (cols : List String) : List String :=
  cols.filter (fun c => df.hasCol c = false)

/-- runner.py line 46: `df_subset = df[relevant_cols].copy()`. -/
def dfSubsetFor (df : DataFrame) (t out : String) (cs : List String) : DataFrame :=
  df.project (relevantCols t out cs)

/-- The fully-null record appended by the `except` handler
(runner.py lines 115-121). -/
def fullyNullRecord (t out : String) : ImpactRecord :=
  { policy := t, pollutant := out, ate := none,
    p_value_ate := none, p_value_placebo := none }

/-- The body of the per-outcome loop of `run_causal_analysis`
(runner.py lines 27-121): `none` models `continue` with no record
appended (missing columns, line 43; degenerate outcome, line 52);
`some r` models appending the record `r`.  An exception raised by any
oracle call reaches the `except` handler, which appends the fully-null
record — note that it discards an already computed `ate_value`. -/
def processOutcome (o : CausalOracle) (df : DataFrame) (t : String)
    (cs : List String) (out : String) : Option ImpactRecord :=
  if (missingCols df (relevantCols t out cs)).isEmpty = false then
    none
  else if (dfSubsetFor df t out cs).nunique out ≤ 1 then
    none
  else
    match o.estimateEffect (dfSubsetFor df t out cs) t out cs with
    | Except.error _ => some (fullyNullRecord t out)
    | Except.ok ate_value =>
      match o.testStatSignificance (dfSubsetFor df t out cs) t out cs ate_value with
      | Except.error _ => some (fullyNullRecord t out)
      | Except.ok sig =>
        match o.refutePlacebo (dfSubsetFor df t out cs) t out cs ate_value with
        | Except.error _ => some (fullyNullRecord t out)
        | Except.ok ref =>
          some { policy := t, pollutant := out, ate := some ate_value,
                 p_value_ate := extractPVal sig,
                 p_value_placebo := extractPVal ref }

/-- `run_causal_analysis(df, treatment_col, outcome_cols, common_causes_list)`
(runner.py lines 11-123): iterate the outcomes in order, appending at most
one record each. -/
def run_causal_analysis (o : CausalOracle) (df : DataFrame) (t : String)
    (outs : List String) (cs : List String) : List ImpactRecord :=
  outs.filterMap (processOutcome o df t cs)

/-- The guard deciding whether a (treatment, outcome) pair reaches the
estimation stage: all relevant columns present and at least two distinct
outcome values in the subset. -/
def notSkipped (df : DataFrame) (t : String) (cs : List String)
    (out : String) : Bool :=
  (missingCols df (relevantCols t out cs)).isEmpty
    && decide (1 < (dfSubsetFor df t out cs).nunique out)

/-! ## The batch driver (`src/scripts/4_run_historical_analysis.py`) -/

/-- One featurized policy row, reduced to the fields the analysis loop
reads (`policy_row['Policy']`, `policy_row['Year']`). -/
structure Policy where
  name : String
  year : ℚ
deriving Repr, DecidableEq

/-- One row of the final impact table, in the column order selected at
script line 122. -/
structure TableRow where
  policy : String
  policy_year : ℚ
  pollutant : String
  ate : Option ℚ
  p_value_ate : Option ℚ
  p_value_placebo : Option ℚ
deriving Repr, DecidableEq

/-- Script line 96: the temporary treatment column name. -/
def tempTreatmentCol : String := "temp_treatment_col"

/-- The per-row indicator value of `(year >= policy_year).astype(int)`. -/
def indicatorVal (policyYear y : ℚ) : ℚ :=
  if policyYear ≤ y then 1 else 0

/-- Script line 99: the derived binary treatment column, aligned to the
`Year` column. -/
def treatmentIndicator (years : List ℚ) (policyYear : ℚ) : List ℚ :=
  years.map (indicatorVal policyYear)

/-- Script lines 93-99: `df_temp = df_model.copy()` followed by
`df_temp[treatment_col_name] = (df_temp['Year'] >= policy_year).astype(int)`. -/
def dfTempFor (df_model : DataFrame) (p : Policy) : DataFrame :=
  df_model.setCol tempTreatmentCol
    (treatmentIndicator (df_model.getCol "Year") p.year)

/-- Script lines 112-114: overwrite the `policy` field with the real
policy name and add the `policy_year` field. -/
def renameRow (p : Policy) (r : ImpactRecord) : TableRow :=
  { policy := p.name, policy_year := p.year, pollutant := r.pollutant,
    ate := r.ate, p_value_ate := r.p_value_ate,
    p_value_placebo := r.p_value_placebo }

/-- One iteration of the analysis loop (script lines 87-116): build the
temporary treatment column, run the causal analysis for this policy
against all outcomes, and rename the results.  The `Year` lookup raises a
`KeyError` when the column is absent — the loop has no try/except, so that
exception aborts the whole script. -/
def policyStep (o : CausalOracle) (df_model : DataFrame)
    (outs cs : List String) (p : Policy) : Except String (List TableRow) :=
  if df_model.hasCol "Year" = false then
    Except.error "KeyError: Year"
  else
    Except.ok ((run_causal_analysis o (dfTempFor df_model p)
      tempTreatmentCol outs cs).map (renameRow p))

/-- Round-half-to-even on ℚ (numpy/pandas `round` semantics). -/
def roundHalfEven (q : ℚ) : ℤ :=
  let f := ⌊q⌋
  let frac := q - f
  if frac < 1 / 2 then f
  else if 1 / 2 < frac then f + 1
  else if f % 2 = 0 then f else f + 1

/-- `round(4)` applied to one numeric value. -/
def round4 (q : ℚ) : ℚ := (roundHalfEven (q * 10000) : ℚ) / 10000

/-- Script line 122: `results_df.round(4)` applied to one row's numeric
fields. -/
def roundRow (r : TableRow) : TableRow :=
  { r with
    policy_year := round4 r.policy_year,
    ate := r.ate.map round4,
    p_value_ate := r.p_value_ate.map round4,
    p_value_placebo := r.p_value_placebo.map round4 }

/-- The whole batch script after loading (script lines 82-125): run the
analysis loop accumulating `all_results`, then select and round the output
columns and write the CSV.  `Except.ok rows` means the output file is
written with exactly `rows`; `Except.error` means the script aborts with
an uncaught exception and writes no output file.  When `all_results` is
empty, `pd.DataFrame([])` has no columns, so the column selection
`results_df[['policy', ...]]` at line 122 raises a `KeyError` before
`to_csv` runs. -/
def runScript (o : CausalOracle) (df_model : DataFrame) (ps : List Policy)
    (outs cs : List String) : Except String (List TableRow) := do
  let rows ← ps.foldlM (fun acc p => do
    let rs ← policyStep o df_model outs cs p
    pure (acc ++ rs)) ([] : List TableRow)
  if rows.isEmpty then
    Except.error "KeyError: column selection on empty frame"
  else
    Except.ok (rows.map roundRow)

/-- The pure value of `all_results` after the analysis loop, as a function
of the inputs (used to relate the heap model below to a pure function). -/
def runBatchRows (o : CausalOracle) (df_model : DataFrame) (ps : List Policy)
    (outs cs : List String) : List TableRow :=
  ps.foldl (fun acc p =>
    acc ++ (run_causal_analysis o (dfTempFor df_model p)
      tempTreatmentCol outs cs).map (renameRow p)) []

/-! ## A heap model of the loop's DataFrame mutation

The Python loop mutates DataFrames in place (`df_temp[col] = ...`), so the
claim that the input panel is never mutated is stated over an explicit
heap of DataFrames: `copy` allocates a fresh cell, column assignment
mutates a cell, and the batch is re-run over this heap. -/

/-- A heap of DataFrames; references are indices, allocation appends. -/
abbrev Heap : Type := List DataFrame

/-- Dereference (out-of-range yields the empty DataFrame; the batch only
dereferences live cells). -/
def Heap.getRef (h : Heap) (r : ℕ) : DataFrame := h.getD r []

/-- `df.copy()`: allocate a fresh cell holding the same value. -/
def Heap.alloc (h : Heap) (d : DataFrame) : Heap × ℕ := (h ++ [d], h.length)

/-- In-place update of the cell `r`. -/
def Heap.setRef (h : Heap) (r : ℕ) (d : DataFrame) : Heap := h.set r d

/-- One loop iteration over the heap: `df_temp = df_model.copy()` is an
allocation, the treatment-column assignment mutates only the fresh cell,
and the runner reads the fresh cell. -/
def policyStepHeap (o : CausalOracle) (outs cs : List String) (panelRef : ℕ)
    (st : Heap × List TableRow) (p : Policy) : Heap × List TableRow :=
  let h := st.1
  let df_model := h.getRef panelRef
  let alloc := h.alloc df_model
  let h1 := alloc.1
  let r := alloc.2
  let h2 := h1.setRef r ((h1.getRef r).setCol tempTreatmentCol
    (treatmentIndicator ((h1.getRef r).getCol "Year") p.year))
  (h2, st.2 ++ (run_causal_analysis o (h2.getRef r)
    tempTreatmentCol outs cs).map (renameRow p))

/-- The analysis loop over the heap, starting from heap `h0` with the
master panel stored at `panelRef`. -/
def runBatchHeap (o : CausalOracle) (h0 : Heap) (panelRef : ℕ)
    (ps : List Policy) (outs cs : List String) : Heap × List TableRow :=
  ps.foldl (policyStepHeap o outs cs panelRef) (h0, [])

/-! ## Concrete fixtures -/

/-- An oracle on which every library call succeeds with fixed values. -/
def okOracle : CausalOracle where
  estimateEffect := fun _ _ _ _ => Except.ok 2
  testStatSignificance := fun _ _ _ _ _ => Except.ok (some [some 1])
  refutePlacebo := fun _ _ _ _ _ => Except.ok (some [some 3])

/-- Like `okOracle`, but the placebo refuter raises an exception. -/
def refuteRaisesOracle : CausalOracle :=
  { okOracle with refutePlacebo := fun _ _ _ _ _ => Except.error () }

/-- Like `okOracle`, but the placebo refuter returns a different p-value
(a different draw of the unseeded global random state). -/
def otherSeedOracle : CausalOracle :=
  { okOracle with refutePlacebo := fun _ _ _ _ _ => Except.ok (some [some 9]) }

/-- A small cleaned master panel: period key, one confounder, one
non-degenerate outcome and one constant (degenerate) outcome. -/
def samplePanel : DataFrame :=
  [("Year", [2007, 2008, 2009]),
   ("confounder_gdp", [10, 20, 30]),
   ("EDGAR_CO2", [5, 6, 7]),
   ("EDGAR_CH4", [4, 4, 4])]

/-- A sample featurized policy. -/
def samplePolicy : Policy := { name := "NAPCC", year := 2008 }

/-- The declared confounders used by the fixtures. -/
def sampleCauses : List String := ["confounder_gdp", "Year"]

/-! ## Claims -/

/-- **C7**: For every policy with enactment period `y` and every row of the
panel, the derived treatment indicator equals 1 iff that row's period ≥ `y`
and 0 otherwise; the indicator is monotone in period (once 1, it stays 1
for all later periods), and its construction always succeeds for any valid
period (total, one value per row). -/
theorem C7_treatment_indicator (years : List ℚ) (py : ℚ) (i : ℕ)
    (h : i < years.length) :
    (treatmentIndicator years py).length = years.length
    ∧ (treatmentIndicator years py).get? i
        = some (if years.get ⟨i, h⟩ ≥ py then (1 : ℚ) else 0)
    ∧ (∀ y1 y2 : ℚ, y1 ≤ y2 → indicatorVal py y1 = 1 → indicatorVal py y2 = 1) := by
  refine ⟨by simp [treatmentIndicator], ?_, ?_⟩
  · rw [treatmentIndicator, List.get?_map, List.get?_eq_get h]
    simp [indicatorVal, ge_iff_le]
  · intro y1 y2 h12 h1
    unfold indicatorVal at h1 ⊢
    by_cases hc : py ≤ y1
    · simp [le_trans hc h12]
    · simp [hc] at h1

/-- Witness for C7 at a concrete panel: periods 2004, 2008, 2012 with
enactment year 2008; the middle row is treated. -/
theorem C7_treatment_indicator_witness :
    (treatmentIndicator [2004, 2008, 2012] 2008).length
        = ([2004, 2008, 2012] : List ℚ).length
    ∧ (treatmentIndicator [2004, 2008, 2012] 2008).get? 1 = some 1
    ∧ (∀ y1 y2 : ℚ, y1 ≤ y2 → indicatorVal 2008 y1 = 1 → indicatorVal 2008 y2 = 1) := by
  have h := C7_treatment_indicator [2004, 2008, 2012] 2008 1 (by norm_num)
  refine ⟨h.1, ?_, h.2.2⟩
  rw [h.2.1]
  norm_num [List.get]

/-- **C2**: the frame handed to the causal estimation step contains exactly
the columns {treatment, the one requested outcome, the declared
confounders}, and never any outcome column other than the requested one (a
name distinct from the treatment, the requested outcome and the declared
confounders is never a column of the subset); moreover the per-outcome
processing probes the oracle only at that subsetted frame, so two oracles
agreeing there behave identically. -/
theorem C2_column_isolation (df : DataFrame) (t out : String)
    (cs : List String) (o2 : String)
    (hne : o2 ≠ out) (hnc : o2 ∉ cs) (hnt : o2 ≠ t) :
    (dfSubsetFor df t out cs).columns = relevantCols t out cs
    ∧ o2 ∉ (dfSubsetFor df t out cs).columns
    ∧ (∀ ora ora' : CausalOracle,
        (∀ tc oc ccs, ora.estimateEffect (dfSubsetFor df t out cs) tc oc ccs
            = ora'.estimateEffect (dfSubsetFor df t out cs) tc oc ccs) →
        (∀ tc oc ccs v, ora.testStatSignificance (dfSubsetFor df t out cs) tc oc ccs v
            = ora'.testStatSignificance (dfSubsetFor df t out cs) tc oc ccs v) →
        (∀ tc oc ccs v, ora.refutePlacebo (dfSubsetFor df t out cs) tc oc ccs v
            = ora'.refutePlacebo (dfSubsetFor df t out cs) tc oc ccs v) →
        processOutcome ora df t cs out = processOutcome ora' df t cs out) := by
  have hcols : (dfSubsetFor df t out cs).columns = relevantCols t out cs := by
    simp [dfSubsetFor, DataFrame.project, DataFrame.columns, List.map_map,
      Function.comp_def]
  refine ⟨hcols, ?_, ?_⟩
  · rw [hcols]
    simp [relevantCols, hne, hnc, hnt]
  · intro ora ora' he hs hr
    unfold processOutcome
    simp only [he, hs, hr]

/-- Witness for C2 on the sample panel: the subset for outcome `EDGAR_CO2`
has exactly the declared columns and excludes the other outcome
`EDGAR_CH4`. -/
theorem C2_column_isolation_witness :
    (dfSubsetFor samplePanel tempTreatmentCol "EDGAR_CO2" sampleCauses).columns
        = relevantCols tempTreatmentCol "EDGAR_CO2" sampleCauses
    ∧ "EDGAR_CH4" ∉
        (dfSubsetFor samplePanel tempTreatmentCol "EDGAR_CO2" sampleCauses).columns
    ∧ (∀ ora ora' : CausalOracle,
        (∀ tc oc ccs, ora.estimateEffect
              (dfSubsetFor samplePanel tempTreatmentCol "EDGAR_CO2" sampleCauses) tc oc ccs
            = ora'.estimateEffect
              (dfSubsetFor samplePanel tempTreatmentCol "EDGAR_CO2" sampleCauses) tc oc ccs) →
        (∀ tc oc ccs v, ora.testStatSignificance
              (dfSubsetFor samplePanel tempTreatmentCol "EDGAR_CO2" sampleCauses) tc oc ccs v
            = ora'.testStatSignificance
              (dfSubsetFor samplePanel tempTreatmentCol "EDGAR_CO2" sampleCauses) tc oc ccs v) →
        (∀ tc oc ccs v, ora.refutePlacebo
              (dfSubsetFor samplePanel tempTreatmentCol "EDGAR_CO2" sampleCauses) tc oc ccs v
            = ora'.refutePlacebo
              (dfSubsetFor samplePanel tempTreatmentCol "EDGAR_CO2" sampleCauses) tc oc ccs v) →
        processOutcome ora samplePanel tempTreatmentCol sampleCauses "EDGAR_CO2"
          = processOutcome ora' samplePanel tempTreatmentCol sampleCauses "EDGAR_CO2") :=
  C2_column_isolation samplePanel tempTreatmentCol "EDGAR_CO2" sampleCauses
    "EDGAR_CH4" (by decide) (by decide) (by decide)

/-- **C3 counterexample**: the claim states that a (policy, outcome) pair
whose outcome column is constant still yields an Impact Record with
`ate = null`.  On the sample panel the outcome `EDGAR_CH4` is constant
(`[4, 4, 4]`), yet `run_causal_analysis` produces an empty table for it —
the `continue` at runner.py line 52 appends no record at all. -/
theorem C3_degenerate_counterexample :
    run_causal_analysis okOracle (dfTempFor samplePanel samplePolicy)
      tempTreatmentCol ["EDGAR_CH4"] sampleCauses = [] := by decide

/-- **C3 (amended)**: for every (policy, outcome) pair whose outcome
column has fewer than two distinct values, the estimator skips estimation
and the output table contains **no** Impact Record for that pair (rather
than a record with `ate = null`). -/
theorem C3_degenerate_skipped (o : CausalOracle) (df : DataFrame)
    (t : String) (cs : List String) (out : String)
    (h : (dfSubsetFor df t out cs).nunique out ≤ 1) :
    processOutcome o df t cs out = none
    ∧ run_causal_analysis o df t [out] cs = [] := by
  have hp : processOutcome o df t cs out = none := by
    unfold processOutcome
    by_cases hm : (missingCols df (relevantCols t out cs)).isEmpty = false
    · simp [hm]
    · simp [hm, h]
  exact ⟨hp, by simp [run_causal_analysis, List.filterMap_cons, hp]⟩

/-- Witness for C3 on the sample panel's constant outcome `EDGAR_CH4`. -/
theorem C3_degenerate_skipped_witness :
    processOutcome okOracle (dfTempFor samplePanel samplePolicy)
        tempTreatmentCol sampleCauses "EDGAR_CH4" = none
    ∧ run_causal_analysis okOracle (dfTempFor samplePanel samplePolicy)
        tempTreatmentCol ["EDGAR_CH4"] sampleCauses = [] :=
  C3_degenerate_skipped okOracle (dfTempFor samplePanel samplePolicy)
    tempTreatmentCol sampleCauses "EDGAR_CH4" (by decide)

/-- A pair for which any required column — the outcome itself or any name
in `relevant_cols` (treatment or declared confounder) — is absent from the
DataFrame is skipped with no record (runner.py lines 40-43). -/
theorem processOutcome_of_missing (o : CausalOracle) (df : DataFrame)
    (t : String) (cs : List String) (out : String) (bad : String)
    (hmem : bad ∈ relevantCols t out cs) (h : df.hasCol bad = false) :
    processOutcome o df t cs out = none := by
  have hm : bad ∈ missingCols df (relevantCols t out cs) := by
    simp [missingCols, List.mem_filter, hmem, h]
  have hne : (missingCols df (relevantCols t out cs)).isEmpty = false := by
    rw [List.isEmpty_eq_false]
    intro hcon
    rw [hcon] at hm
    exact (List.not_mem_nil _) hm
  unfold processOutcome
  simp [hne]

/-- **C4 counterexample**: the claim states that a pair with a missing
outcome column gets a fully-null Impact Record.  On the sample panel, a
batch over {`EDGAR_CO2`, `EDGAR_SO2`} (the latter absent) completes with
**one** record — the missing pair leaves no record at all, fully-null or
otherwise. -/
theorem C4_missing_counterexample :
    run_causal_analysis okOracle (dfTempFor samplePanel samplePolicy)
      tempTreatmentCol ["EDGAR_CO2", "EDGAR_SO2"] sampleCauses
      = [{ policy := tempTreatmentCol, pollutant := "EDGAR_CO2",
           ate := some 2, p_value_ate := some 1,
           p_value_placebo := some 3 }] := by decide

/-- **C4 (amended)**: an absent *outcome* column is confined to that one
pair — the batch completes, all other pairs produce exactly their normal
records, no exception escapes, but the failed pair produces **no** Impact
Record (rather than a fully-null one).  An absent *declared confounder*,
by contrast, is not confined to one pair: the missing name sits in
`relevant_cols` of every pair (runner.py line 37), so **every** pair of
the run is skipped and the runner returns the empty table — again with
no exception and no records. -/
theorem C4_missing_column_isolated (o : CausalOracle) (df : DataFrame)
    (t : String) (cs : List String) (outs1 outs2 : List String)
    (bad : String) (h : df.hasCol bad = false) :
    run_causal_analysis o df t (outs1 ++ bad :: outs2) cs
      = run_causal_analysis o df t outs1 cs
        ++ run_causal_analysis o df t outs2 cs
    ∧ ∀ (cs' : List String) (outs : List String), bad ∈ cs' →
        run_causal_analysis o df t outs cs' = [] := by
  constructor
  · unfold run_causal_analysis
    rw [List.filterMap_append, List.filterMap_cons,
      processOutcome_of_missing o df t cs bad bad
        (by simp [relevantCols]) h]
  · intro cs' outs hmem
    unfold run_causal_analysis
    rw [List.filterMap_eq_nil_iff]
    intro out _
    exact processOutcome_of_missing o df t cs' out bad
      (by simp [relevantCols, hmem]) h

/-- Witness for C4: the absent column `EDGAR_SO2` injected as an outcome
between two well-formed outcomes contributes nothing and leaves the rest
of the batch untouched; the same absent column declared as a confounder
empties the whole run. -/
theorem C4_missing_column_isolated_witness :
    (run_causal_analysis okOracle (dfTempFor samplePanel samplePolicy)
        tempTreatmentCol (["EDGAR_CO2"] ++ "EDGAR_SO2" :: ["EDGAR_CH4"]) sampleCauses
      = run_causal_analysis okOracle (dfTempFor samplePanel samplePolicy)
          tempTreatmentCol ["EDGAR_CO2"] sampleCauses
        ++ run_causal_analysis okOracle (dfTempFor samplePanel samplePolicy)
            tempTreatmentCol ["EDGAR_CH4"] sampleCauses)
    ∧ run_causal_analysis okOracle (dfTempFor samplePanel samplePolicy)
        tempTreatmentCol ["EDGAR_CO2", "EDGAR_CH4"]
        ("EDGAR_SO2" :: sampleCauses) = [] :=
  ⟨(C4_missing_column_isolated okOracle (dfTempFor samplePanel samplePolicy)
      tempTreatmentCol sampleCauses ["EDGAR_CO2"] ["EDGAR_CH4"] "EDGAR_SO2"
      (by decide)).1,
   (C4_missing_column_isolated okOracle (dfTempFor samplePanel samplePolicy)
      tempTreatmentCol sampleCauses ["EDGAR_CO2"] ["EDGAR_CH4"] "EDGAR_SO2"
      (by decide)).2 ("EDGAR_SO2" :: sampleCauses) ["EDGAR_CO2", "EDGAR_CH4"]
      (by decide)⟩

/-- A pair is recorded exactly when it passes both skip guards. -/
theorem processOutcome_isSome_eq (o : CausalOracle) (df : DataFrame)
    (t : String) (cs : List String) (out : String) :
    (processOutcome o df t cs out).isSome = notSkipped df t cs out := by
  unfold processOutcome notSkipped
  by_cases hm : (missingCols df (relevantCols t out cs)).isEmpty = false
  · simp [hm]
  · have hm' : (missingCols df (relevantCols t out cs)).isEmpty = true := by
      cases hh : (missingCols df (relevantCols t out cs)).isEmpty
      · exact absurd hh hm
      · rfl
    by_cases hq : (dfSubsetFor df t out cs).nunique out ≤ 1
    · simp [hm', hq, Nat.not_lt.mpr hq]
    · have h1 : 1 < (dfSubsetFor df t out cs).nunique out := Nat.not_le.mp hq
      simp only [hm', hq, Bool.true_and, if_neg, if_false,
        Bool.false_eq_true, decide_eq_true_eq]
      cases hE : o.estimateEffect (dfSubsetFor df t out cs) t out cs with
      | error e => simp [h1]
      | ok v =>
        cases hS : o.testStatSignificance (dfSubsetFor df t out cs) t out cs v with
        | error e => simp [hS, h1]
        | ok sig =>
          cases hR : o.refutePlacebo (dfSubsetFor df t out cs) t out cs v with
          | error e => simp [hS, hR, h1]
          | ok ref => simp [hS, hR, h1]

/-- The runner's output has one record per non-skipped outcome, in outcome
order. -/
theorem run_causal_analysis_length (o : CausalOracle) (df : DataFrame)
    (t : String) (cs : List String) :
    ∀ outs : List String,
      (run_causal_analysis o df t outs cs).length
        = (outs.filter (notSkipped df t cs)).length
  | [] => rfl
  | a :: tl => by
    have ha := processOutcome_isSome_eq o df t cs a
    have ih := run_causal_analysis_length o df t cs tl
    rw [run_causal_analysis, List.filterMap_cons, List.filter_cons]
    cases hp : processOutcome o df t cs a with
    | none =>
      rw [hp] at ha
      simp only [Option.isSome_none] at ha
      rw [← ha]
      simpa [run_causal_analysis] using ih
    | some r =>
      rw [hp] at ha
      simp only [Option.isSome_some] at ha
      rw [← ha]
      simpa [run_causal_analysis] using ih

/-- `all_results` after the loop is the per-policy outputs concatenated in
policy order. -/
theorem runBatchRows_eq_flatMap (o : CausalOracle) (df : DataFrame)
    (outs cs : List String) :
    ∀ (ps : List Policy) (acc : List TableRow),
      ps.foldl (fun a p =>
          a ++ (run_causal_analysis o (dfTempFor df p) tempTreatmentCol outs cs).map
            (renameRow p)) acc
        = acc ++ ps.flatMap (fun p =>
            (run_causal_analysis o (dfTempFor df p) tempTreatmentCol outs cs).map
              (renameRow p))
  | [], acc => by simp
  | p :: tl, acc => by
    rw [List.foldl_cons, List.flatMap_cons,
      runBatchRows_eq_flatMap o df outs cs tl (acc ++ _), List.append_assoc]

/-- **C1 counterexample**: the claim states the table's row count always
equals |policies| × |outcomes|.  With one policy and one outcome column
that is absent from the panel, the batch produces 0 rows, not 1 × 1. -/
theorem C1_row_count_counterexample :
    (runBatchRows okOracle samplePanel [samplePolicy] ["EDGAR_SO2"] sampleCauses).length
      ≠ [samplePolicy].length * (["EDGAR_SO2"] : List String).length := by decide

/-- **C1 (amended)**: each policy contributes exactly one Impact Record
per outcome that passes the two skip guards (required columns present and
at least two distinct outcome values); pairs skipped by missing columns or
a degenerate outcome contribute **no** record, so the table's row count is
`Σ_policy |non-skipped outcomes|`, which is at most — not always equal
to — |policies| × |outcomes|. -/
theorem C1_row_count (o : CausalOracle) (df : DataFrame) (t : String)
    (outs cs : List String) (ps : List Policy) :
    (run_causal_analysis o df t outs cs).length
        = (outs.filter (notSkipped df t cs)).length
    ∧ (runBatchRows o df ps outs cs).length
        = (ps.map (fun p =>
            (outs.filter (notSkipped (dfTempFor df p) tempTreatmentCol cs)).length)).sum
    ∧ (runBatchRows o df ps outs cs).length ≤ ps.length * outs.length := by
  refine ⟨run_causal_analysis_length o df t cs outs, ?_, ?_⟩
  · rw [runBatchRows, runBatchRows_eq_flatMap o df outs cs ps [], List.nil_append,
      List.length_flatMap]
    congr 1
    refine List.map_congr_left ?_
    intro p _
    simp [Function.comp, run_causal_analysis_length]
  · rw [runBatchRows, runBatchRows_eq_flatMap o df outs cs ps [], List.nil_append]
    induction ps with
    | nil => simp
    | cons p tl ih =>
      rw [List.flatMap_cons, List.length_append, List.length_cons, Nat.succ_mul,
        Nat.add_comm (tl.length * outs.length) outs.length]
      have h1 : ((run_causal_analysis o (dfTempFor df p) tempTreatmentCol outs cs).map
          (renameRow p)).length ≤ outs.length := by
        rw [List.length_map]
        exact List.length_filterMap_le _ _
      exact Nat.add_le_add h1 ih

/-- **C5 counterexample**: the claim states that when the ATE was computed
but the refutation step fails entirely, only `p_value_placebo` is nulled
and the ATE is still reported.  With an oracle whose estimation succeeds
(ATE = 2) but whose placebo refuter raises, the `except` handler at
runner.py lines 113-121 appends the fully-null record — the computed ATE
is discarded. -/
theorem C5_refute_exception_counterexample :
    run_causal_analysis refuteRaisesOracle (dfTempFor samplePanel samplePolicy)
      tempTreatmentCol ["EDGAR_CO2"] sampleCauses
      = [fullyNullRecord tempTreatmentCol "EDGAR_CO2"] := by decide

/-- **C5 (amended)**: for a pair that passes both skip guards and whose
ATE was computed, a significance or refutation result that degrades
*without raising* (no usable p-value in the returned payload) nulls only
the corresponding p-value field while the ATE is still reported; but an
*exception* raised by the significance test or by the refutation step
reaches the per-pair handler, which records the fully-null record,
discarding the computed ATE. -/
theorem C5_pvalue_degradation (o : CausalOracle) (df : DataFrame)
    (t out : String) (cs : List String) (v : ℚ)
    (hm : (missingCols df (relevantCols t out cs)).isEmpty = true)
    (hq : 1 < (dfSubsetFor df t out cs).nunique out)
    (he : o.estimateEffect (dfSubsetFor df t out cs) t out cs = Except.ok v) :
    (∀ sig ref : PValPayload,
        o.testStatSignificance (dfSubsetFor df t out cs) t out cs v = Except.ok sig →
        o.refutePlacebo (dfSubsetFor df t out cs) t out cs v = Except.ok ref →
        processOutcome o df t cs out
          = some { policy := t, pollutant := out, ate := some v,
                   p_value_ate := extractPVal sig,
                   p_value_placebo := extractPVal ref })
    ∧ (o.testStatSignificance (dfSubsetFor df t out cs) t out cs v = Except.error () →
        processOutcome o df t cs out = some (fullyNullRecord t out))
    ∧ (∀ sig : PValPayload,
        o.testStatSignificance (dfSubsetFor df t out cs) t out cs v = Except.ok sig →
        o.refutePlacebo (dfSubsetFor df t out cs) t out cs v = Except.error () →
        processOutcome o df t cs out = some (fullyNullRecord t out)) := by
  have hgo : ∀ r : Option ImpactRecord,
      (match o.estimateEffect (dfSubsetFor df t out cs) t out cs with
        | Except.error _ => some (fullyNullRecord t out)
        | Except.ok ate_value =>
          match o.testStatSignificance (dfSubsetFor df t out cs) t out cs ate_value with
          | Except.error _ => some (fullyNullRecord t out)
          | Except.ok sig =>
            match o.refutePlacebo (dfSubsetFor df t out cs) t out cs ate_value with
            | Except.error _ => some (fullyNullRecord t out)
            | Except.ok ref =>
              some { policy := t, pollutant := out, ate := some ate_value,
                     p_value_ate := extractPVal sig,
                     p_value_placebo := extractPVal ref }) = r →
      processOutcome o df t cs out = r := by
    intro r hmatch
    unfold processOutcome
    rw [if_neg (by rw [hm]; simp), if_neg (Nat.not_le.mpr hq)]
    exact hmatch
  refine ⟨?_, ?_, ?_⟩
  · intro sig ref hs hr
    exact hgo _ (by simp [he, hs, hr])
  · intro hs
    exact hgo _ (by simp [he, hs])
  · intro sig hs hr
    exact hgo _ (by simp [he, hs, hr])

/-- Witness for C5: on the sample panel, `okOracle` (all steps succeed)
reports the computed ATE with both p-values, while `refuteRaisesOracle`
(same estimation, refuter raises) yields the fully-null record. -/
theorem C5_pvalue_degradation_witness :
    processOutcome okOracle (dfTempFor samplePanel samplePolicy)
        tempTreatmentCol sampleCauses "EDGAR_CO2"
      = some { policy := tempTreatmentCol, pollutant := "EDGAR_CO2",
               ate := some 2, p_value_ate := extractPVal (some [some 1]),
               p_value_placebo := extractPVal (some [some 3]) }
    ∧ processOutcome refuteRaisesOracle (dfTempFor samplePanel samplePolicy)
        tempTreatmentCol sampleCauses "EDGAR_CO2"
      = some (fullyNullRecord tempTreatmentCol "EDGAR_CO2") :=
  ⟨(C5_pvalue_degradation okOracle (dfTempFor samplePanel samplePolicy)
      tempTreatmentCol "EDGAR_CO2" sampleCauses 2 (by decide) (by decide) rfl).1
      (some [some 1]) (some [some 3]) rfl rfl,
   (C5_pvalue_degradation refuteRaisesOracle (dfTempFor samplePanel samplePolicy)
      tempTreatmentCol "EDGAR_CO2" sampleCauses 2 (by decide) (by decide) rfl).2.2
      (some [some 1]) rfl rfl⟩

/-- The fields of an Impact Record produced by the estimation and
significance path alone (everything except `p_value_placebo`). -/
def estSigView (r : ImpactRecord) : String × String × Option ℚ × Option ℚ :=
  (r.policy, r.pollutant, r.ate, r.p_value_ate)

/-- Whether a library call returned normally (did not raise). -/
def exceptSucceeds {ε α : Type} : Except ε α → Bool
  | Except.ok _ => true
  | Except.error _ => false

/-- **C8**: the estimation and significance path involves no randomness —
two runs whose estimation and significance calls behave identically (and
whose placebo refuter, the only randomized step, may return different
p-values but raises on the same inputs) produce identical `policy`,
`pollutant`, `ate` and `p_value_ate` fields for every record, in the same
order. -/
theorem C8_determinism (o1 o2 : CausalOracle) (df : DataFrame) (t : String)
    (outs cs : List String)
    (he : o1.estimateEffect = o2.estimateEffect)
    (hs : o1.testStatSignificance = o2.testStatSignificance)
    (hr : ∀ d tc oc ccs v, exceptSucceeds (o1.refutePlacebo d tc oc ccs v)
        = exceptSucceeds (o2.refutePlacebo d tc oc ccs v)) :
    (run_causal_analysis o1 df t outs cs).map estSigView
      = (run_causal_analysis o2 df t outs cs).map estSigView := by
  have hpoint : ∀ out, Option.map estSigView (processOutcome o1 df t cs out)
      = Option.map estSigView (processOutcome o2 df t cs out) := by
    intro out
    unfold processOutcome
    simp only [he, hs]
    by_cases hm : (missingCols df (relevantCols t out cs)).isEmpty = false
    · simp [hm]
    · by_cases hq : (dfSubsetFor df t out cs).nunique out ≤ 1
      · simp [hm, hq]
      · simp only [hm, hq, if_false]
        cases hE : o2.estimateEffect (dfSubsetFor df t out cs) t out cs with
        | error e => simp
        | ok v =>
          cases hS : o2.testStatSignificance (dfSubsetFor df t out cs) t out cs v with
          | error e => simp [hS]
          | ok sig =>
            have hrv := hr (dfSubsetFor df t out cs) t out cs v
            cases hR1 : o1.refutePlacebo (dfSubsetFor df t out cs) t out cs v with
            | error e1 =>
              cases hR2 : o2.refutePlacebo (dfSubsetFor df t out cs) t out cs v with
              | error e2 => simp [hS, hR1, hR2]
              | ok r2 =>
                rw [hR1, hR2] at hrv
                exact absurd hrv (by simp [exceptSucceeds])
            | ok r1 =>
              cases hR2 : o2.refutePlacebo (dfSubsetFor df t out cs) t out cs v with
              | error e2 =>
                rw [hR1, hR2] at hrv
                exact absurd hrv (by simp [exceptSucceeds])
              | ok r2 => simp [hS, hR1, hR2, estSigView]
  rw [run_causal_analysis, run_causal_analysis, List.map_filterMap,
    List.map_filterMap]
  exact List.filterMap_congr (fun out _ => hpoint out)

/-- Witness for C8: `okOracle` and `otherSeedOracle` differ only in the
placebo p-value they return; the batch outputs agree on every field the
estimation and significance path produces. -/
theorem C8_determinism_witness :
    (run_causal_analysis okOracle (dfTempFor samplePanel samplePolicy)
        tempTreatmentCol ["EDGAR_CO2", "EDGAR_CH4"] sampleCauses).map estSigView
      = (run_causal_analysis otherSeedOracle (dfTempFor samplePanel samplePolicy)
          tempTreatmentCol ["EDGAR_CO2", "EDGAR_CH4"] sampleCauses).map estSigView :=
  C8_determinism okOracle otherSeedOracle (dfTempFor samplePanel samplePolicy)
    tempTreatmentCol ["EDGAR_CO2", "EDGAR_CH4"] sampleCauses rfl rfl
    (fun _ _ _ _ _ => rfl)

/-- Every record the runner appends carries the treatment name as its
`policy` field and its outcome as its `pollutant` field. -/
theorem processOutcome_fields (o : CausalOracle) (df : DataFrame)
    (t : String) (cs : List String) (out : String) (r : ImpactRecord)
    (h : processOutcome o df t cs out = some r) :
    r.policy = t ∧ r.pollutant = out := by
  unfold processOutcome at h
  by_cases hm : (missingCols df (relevantCols t out cs)).isEmpty = false
  · rw [if_pos hm] at h
    cases h
  · rw [if_neg hm] at h
    by_cases hq : (dfSubsetFor df t out cs).nunique out ≤ 1
    · rw [if_pos hq] at h
      cases h
    · rw [if_neg hq] at h
      cases hE : o.estimateEffect (dfSubsetFor df t out cs) t out cs with
      | error e =>
        simp only [hE] at h
        rw [Option.some.injEq] at h
        rw [← h]
        exact ⟨rfl, rfl⟩
      | ok v =>
        cases hS : o.testStatSignificance (dfSubsetFor df t out cs) t out cs v with
        | error e =>
          simp only [hE, hS] at h
          rw [Option.some.injEq] at h
          rw [← h]
          exact ⟨rfl, rfl⟩
        | ok sig =>
          cases hR : o.refutePlacebo (dfSubsetFor df t out cs) t out cs v with
          | error e =>
            simp only [hE, hS, hR] at h
            rw [Option.some.injEq] at h
            rw [← h]
            exact ⟨rfl, rfl⟩
          | ok ref =>
            simp only [hE, hS, hR] at h
            rw [Option.some.injEq] at h
            rw [← h]
            exact ⟨rfl, rfl⟩

/-- Within one runner call, at most `count(out, outs)` records carry a
given pollutant name. -/
theorem run_countP_pollutant_le (o : CausalOracle) (df : DataFrame)
    (t : String) (cs : List String) (out : String) :
    ∀ outs : List String,
      (run_causal_analysis o df t outs cs).countP (fun r => r.pollutant == out)
        ≤ outs.countP (fun a => a == out)
  | [] => Nat.le_refl 0
  | a :: tl => by
    have ih := run_countP_pollutant_le o df t cs out tl
    rw [run_causal_analysis, List.filterMap_cons, List.countP_cons]
    cases hp : processOutcome o df t cs a with
    | none =>
      exact le_trans ih (Nat.le_add_right _ _)
    | some r =>
      rw [List.countP_cons]
      have hf : (r.pollutant == out) = (a == out) := by
        rw [(processOutcome_fields o df t cs a r hp).2]
      rw [hf]
      exact Nat.add_le_add ih (Nat.le_refl _)

/-- Every row of the accumulated batch output carries the name of one of
the input policies. -/
theorem mem_runBatchRows_policy (o : CausalOracle) (df : DataFrame)
    (outs cs : List String) (ps : List Policy) (r : TableRow)
    (h : r ∈ runBatchRows o df ps outs cs) : r.policy ∈ ps.map Policy.name := by
  rw [runBatchRows, runBatchRows_eq_flatMap o df outs cs ps [], List.nil_append,
    List.mem_flatMap] at h
  obtain ⟨p, hp, hr⟩ := h
  rw [List.mem_map] at hr
  obtain ⟨r0, _, hrr⟩ := hr
  rw [← hrr]
  exact List.mem_map.mpr ⟨p, hp, rfl⟩

/-- With distinct policy names and distinct outcome names, the batch
output holds at most one row per (policy, outcome) pair. -/
theorem runBatchRows_countP_le_one (o : CausalOracle) (df : DataFrame)
    (outs cs : List String) (n out : String) (ho : outs.Nodup) :
    ∀ ps : List Policy, (ps.map Policy.name).Nodup →
      (runBatchRows o df ps outs cs).countP
          (fun r => r.policy == n && r.pollutant == out) ≤ 1
  | [], _ => by simp [runBatchRows]
  | p :: tl, hn => by
    rw [List.map_cons, List.nodup_cons] at hn
    have ih := runBatchRows_countP_le_one o df outs cs n out ho tl hn.2
    rw [runBatchRows, runBatchRows_eq_flatMap o df outs cs (p :: tl) [],
      List.nil_append, List.flatMap_cons, List.countP_append]
    rw [runBatchRows, runBatchRows_eq_flatMap o df outs cs tl [],
      List.nil_append] at ih
    have hhead := List.countP_map
      (fun r : TableRow => r.policy == n && r.pollutant == out) (renameRow p)
      (run_causal_analysis o (dfTempFor df p) tempTreatmentCol outs cs)
    by_cases hpn : p.name = n
    · have htail : (tl.flatMap (fun q =>
          (run_causal_analysis o (dfTempFor df q) tempTreatmentCol outs cs).map
            (renameRow q))).countP
          (fun r => r.policy == n && r.pollutant == out) = 0 := by
        rw [List.countP_eq_zero]
        intro r hr
        have hmem : r.policy ∈ tl.map Policy.name := by
          refine mem_runBatchRows_policy o df outs cs tl r ?_
          rw [runBatchRows, runBatchRows_eq_flatMap o df outs cs tl [],
            List.nil_append]
          exact hr
        intro hcon
        rw [Bool.and_eq_true, beq_iff_eq, beq_iff_eq] at hcon
        rw [hcon.1, ← hpn] at hmem
        exact hn.1 hmem
      have hhead_le : ((run_causal_analysis o (dfTempFor df p)
          tempTreatmentCol outs cs).map (renameRow p)).countP
          (fun r => r.policy == n && r.pollutant == out) ≤ 1 := by
        rw [hhead]
        have hcomp : ((fun r : TableRow => r.policy == n && r.pollutant == out)
            ∘ renameRow p) = fun r0 : ImpactRecord =>
              p.name == n && r0.pollutant == out := rfl
        rw [hcomp]
        have hbeq : (p.name == n) = true := beq_iff_eq.mpr hpn
        simp only [hbeq, Bool.true_and]
        refine le_trans (run_countP_pollutant_le o (dfTempFor df p)
          tempTreatmentCol cs out outs) ?_
        rw [← List.count_eq_countP]
        exact List.nodup_iff_count_le_one.mp ho out
      rw [htail]
      simpa using hhead_le
    · have hhead0 : ((run_causal_analysis o (dfTempFor df p)
          tempTreatmentCol outs cs).map (renameRow p)).countP
          (fun r => r.policy == n && r.pollutant == out) = 0 := by
        rw [List.countP_eq_zero]
        intro r hr
        rw [List.mem_map] at hr
        obtain ⟨r0, _, hrr⟩ := hr
        intro hcon
        rw [Bool.and_eq_true, beq_iff_eq, beq_iff_eq] at hcon
        rw [← hrr] at hcon
        exact hpn hcon.1
      rw [hhead0]
      simpa using ih

/-- **C10**: the Impact Table's rows appear in the fixed deterministic
order — grouped by policy in input-list order and, within one policy, in
declared outcome-column order (the table is the policy-wise concatenation
of per-outcome filtered maps) — and, when policy names and outcome names
are distinct, at most one record exists per (policy, outcome) pair. -/
theorem C10_row_order (o : CausalOracle) (df : DataFrame) (ps : List Policy)
    (outs cs : List String)
    (hn : (ps.map Policy.name).Nodup) (ho : outs.Nodup) :
    runBatchRows o df ps outs cs
      = ps.flatMap (fun p => outs.filterMap (fun out =>
          (processOutcome o (dfTempFor df p) tempTreatmentCol cs out).map
            (renameRow p)))
    ∧ ∀ n out : String,
        (runBatchRows o df ps outs cs).countP
            (fun r => r.policy == n && r.pollutant == out) ≤ 1 := by
  constructor
  · rw [runBatchRows, runBatchRows_eq_flatMap o df outs cs ps [], List.nil_append]
    simp only [run_causal_analysis, List.map_filterMap]
  · intro n out
    exact runBatchRows_countP_le_one o df outs cs n out ho ps hn

/-- Witness for C10 on the sample batch. -/
theorem C10_row_order_witness :
    runBatchRows okOracle samplePanel [samplePolicy]
        ["EDGAR_CO2", "EDGAR_CH4"] sampleCauses
      = [samplePolicy].flatMap (fun p =>
          ["EDGAR_CO2", "EDGAR_CH4"].filterMap (fun out =>
            (processOutcome okOracle (dfTempFor samplePanel p)
              tempTreatmentCol sampleCauses out).map (renameRow p)))
    ∧ (runBatchRows okOracle samplePanel [samplePolicy]
          ["EDGAR_CO2", "EDGAR_CH4"] sampleCauses).countP
        (fun r => r.policy == "NAPCC" && r.pollutant == "EDGAR_CO2") ≤ 1 :=
  ⟨(C10_row_order okOracle samplePanel [samplePolicy]
      ["EDGAR_CO2", "EDGAR_CH4"] sampleCauses (by decide) (by decide)).1,
   (C10_row_order okOracle samplePanel [samplePolicy]
      ["EDGAR_CO2", "EDGAR_CH4"] sampleCauses (by decide) (by decide)).2
      "NAPCC" "EDGAR_CO2"⟩

theorem Heap.getRef_append_left (h : Heap) (d : DataFrame) (n : ℕ)
    (hn : n < h.length) : Heap.getRef (h ++ [d]) n = h.getRef n :=
  List.getD_append h [d] [] n hn

theorem Heap.getRef_concat_length (h : Heap) (d : DataFrame) :
    Heap.getRef (h ++ [d]) h.length = d := by
  rw [Heap.getRef, List.getD_eq_getElem?_getD, List.getElem?_concat_length]
  rfl

theorem Heap.getRef_set_ne (h : Heap) (i j : ℕ) (d : DataFrame)
    (hij : i ≠ j) : Heap.getRef (h.setRef i d) j = h.getRef j := by
  rw [Heap.getRef, Heap.setRef, List.getD_eq_getElem?_getD,
    List.getElem?_set_ne hij, ← List.getD_eq_getElem?_getD, Heap.getRef]

theorem Heap.getRef_set_self (h : Heap) (i : ℕ) (d : DataFrame)
    (hi : i < h.length) : Heap.getRef (h.setRef i d) i = d := by
  rw [Heap.getRef, Heap.setRef, List.getD_eq_getElem?_getD,
    List.getElem?_set_self hi]
  rfl

/-- One loop iteration touches only the freshly allocated copy: the cell
holding the master panel is unreadably equal before and after, the heap
grows by one cell, and the appended rows are those of the pure runner on
the temporary frame built from the master panel's value. -/
theorem policyStepHeap_spec (o : CausalOracle) (outs cs : List String)
    (panelRef : ℕ) (h : Heap) (acc : List TableRow) (p : Policy)
    (hlt : panelRef < h.length) :
    (policyStepHeap o outs cs panelRef (h, acc) p).1.getRef panelRef
        = h.getRef panelRef
    ∧ (policyStepHeap o outs cs panelRef (h, acc) p).1.length = h.length + 1
    ∧ (policyStepHeap o outs cs panelRef (h, acc) p).2
        = acc ++ (run_causal_analysis o (dfTempFor (h.getRef panelRef) p)
            tempTreatmentCol outs cs).map (renameRow p) := by
  have hfresh : Heap.getRef (h ++ [h.getRef panelRef]) h.length
      = h.getRef panelRef := Heap.getRef_concat_length h _
  have hne : h.length ≠ panelRef := (Nat.ne_of_lt hlt).symm
  simp only [policyStepHeap, Heap.alloc]
  rw [hfresh]
  rw [show (h.getRef panelRef).setCol tempTreatmentCol
      (treatmentIndicator ((h.getRef panelRef).getCol "Year") p.year)
      = dfTempFor (h.getRef panelRef) p from rfl]
  refine ⟨?_, ?_, ?_⟩
  · rw [Heap.getRef_set_ne _ _ _ _ hne, Heap.getRef_append_left _ _ _ hlt]
  · rw [Heap.setRef, List.length_set, List.length_append]
    rfl
  · rw [Heap.getRef_set_self]
    rw [List.length_append]
    exact Nat.lt_succ_self _

/-- The analysis loop over the heap never changes the cell holding the
master panel, and the rows it accumulates are a pure function of that
cell's initial value. -/
theorem runBatchHeap_aux (o : CausalOracle) (outs cs : List String)
    (d0 : DataFrame) (panelRef : ℕ) :
    ∀ (ps : List Policy) (h : Heap) (acc : List TableRow),
      panelRef < h.length → h.getRef panelRef = d0 →
      (ps.foldl (policyStepHeap o outs cs panelRef) (h, acc)).1.getRef panelRef = d0
      ∧ (ps.foldl (policyStepHeap o outs cs panelRef) (h, acc)).2
          = ps.foldl (fun a p =>
              a ++ (run_causal_analysis o (dfTempFor d0 p)
                tempTreatmentCol outs cs).map (renameRow p)) acc
  | [], _, _, _, hget => ⟨hget, rfl⟩
  | p :: tl, h, acc, hlt, hget => by
    obtain ⟨hs1, hs2, hs3⟩ := policyStepHeap_spec o outs cs panelRef h acc p hlt
    rcases hst : policyStepHeap o outs cs panelRef (h, acc) p with ⟨h2, acc2⟩
    rw [hst] at hs1 hs2 hs3
    rw [hget] at hs1 hs3
    have hlt2 : panelRef < h2.length := by
      rw [show h2 = (h2, acc2).1 from rfl, ← hst] at hs2 ⊢
      rw [hs2]
      exact Nat.lt_succ_of_lt hlt
    have ih := runBatchHeap_aux o outs cs d0 panelRef tl h2 acc2 hlt2 hs1
    rw [List.foldl_cons, hst, List.foldl_cons]
    exact ⟨ih.1, by rw [ih.2, ← hs3]⟩

/-- **C9**: a batch run never mutates its inputs: with the DataFrame heap
made explicit (allocation for `df.copy()`, in-place column assignment for
`df_temp[col] = ...`), the cell holding the master panel is unchanged
after the whole loop, and the accumulated result rows equal a pure
function (`runBatchRows`) of the panel's value, the policy list and the
declared confounders — the engine carries no state across pairs or runs.
The policy list itself is only ever read by the loop, so it is modelled
as an immutable value. -/
theorem C9_no_mutation (o : CausalOracle) (h0 : Heap) (panelRef : ℕ)
    (ps : List Policy) (outs cs : List String) (hlt : panelRef < h0.length) :
    (runBatchHeap o h0 panelRef ps outs cs).1.getRef panelRef
        = h0.getRef panelRef
    ∧ (runBatchHeap o h0 panelRef ps outs cs).2
        = runBatchRows o (h0.getRef panelRef) ps outs cs :=
  runBatchHeap_aux o outs cs (h0.getRef panelRef) panelRef ps h0 [] hlt rfl

/-- Witness for C9: a heap holding the sample panel at cell 0 is intact
after the sample batch, whose rows match the pure batch function. -/
theorem C9_no_mutation_witness :
    (runBatchHeap okOracle [samplePanel] 0 [samplePolicy]
        ["EDGAR_CO2"] sampleCauses).1.getRef 0
      = Heap.getRef [samplePanel] 0
    ∧ (runBatchHeap okOracle [samplePanel] 0 [samplePolicy]
        ["EDGAR_CO2"] sampleCauses).2
      = runBatchRows okOracle (Heap.getRef [samplePanel] 0) [samplePolicy]
          ["EDGAR_CO2"] sampleCauses :=
  C9_no_mutation okOracle [samplePanel] 0 [samplePolicy] ["EDGAR_CO2"]
    sampleCauses (by decide)

/-- `round(4)` is the identity on the concrete values of the sample run. -/
theorem round4_sample_values :
    round4 2008 = 2008 ∧ round4 2 = 2 ∧ round4 1 = 1 ∧ round4 3 = 3 := by
  norm_num [round4, roundHalfEven]

/-- **C6 counterexample**: the claim states that a structurally invalid
input — in particular zero declared confounders — makes the run fail fast
with no output file.  With an empty confounder list the script runs to
completion and writes a complete output file: there is no structural
validation anywhere in the code. -/
theorem C6_counterexample :
    runScript okOracle samplePanel [samplePolicy] ["EDGAR_CO2"] []
      = Except.ok [{ policy := "NAPCC", policy_year := 2008,
                     pollutant := "EDGAR_CO2", ate := some 2,
                     p_value_ate := some 1, p_value_placebo := some 3 }] := by
  have h : runScript okOracle samplePanel [samplePolicy] ["EDGAR_CO2"] []
      = Except.ok (List.map roundRow
          [{ policy := "NAPCC", policy_year := 2008, pollutant := "EDGAR_CO2",
             ate := some 2, p_value_ate := some 1,
             p_value_placebo := some 3 }]) := rfl
  rw [h]
  simp [roundRow, round4_sample_values.1, round4_sample_values.2.1,
    round4_sample_values.2.2.1, round4_sample_values.2.2.2]

/-- **C6 (amended)**: the script performs no up-front structural
validation.  With an empty policy list or an empty panel the run does
abort with no output file written, but the error is an uncaught
`KeyError` raised during the loop (missing `Year` column) or at the
post-loop column selection on an empty result frame — not a fail-fast
whole-run check before any pair is processed; and a zero-confounder input
is not treated as invalid at all (see the counterexample). -/
theorem C6_no_structural_check (o : CausalOracle) (df : DataFrame)
    (ps : List Policy) (outs cs : List String) (h : ps = [] ∨ df = []) :
    ∃ e, runScript o df ps outs cs = Except.error e := by
  rcases h with h | h
  · subst h
    exact ⟨"KeyError: column selection on empty frame", rfl⟩
  · subst h
    cases ps with
    | nil => exact ⟨"KeyError: column selection on empty frame", rfl⟩
    | cons p tl => exact ⟨"KeyError: Year", rfl⟩

/-- Witness for C6: the empty policy list aborts the sample run with an
error (no output written). -/
theorem C6_no_structural_check_witness :
    ∃ e, runScript okOracle samplePanel [] ["EDGAR_CO2"] sampleCauses
      = Except.error e :=
  C6_no_structural_check okOracle samplePanel [] ["EDGAR_CO2"] sampleCauses
    (Or.inl rfl)
